import Mathlib

/-!
Shallow embedding of `mpl/ocr` (main.go): a command-line utility that
authenticates to a cloud Vision API using either a service-account file
(`-service_account`) or an interactive OAuth2 flow (`-client_id`), submits a
local image (`-input`) for text detection, and prints the detected text.

Modelling choices:
* Every effectful Go function becomes a Lean function taking a read-only
  oracle `World` describing what the environment (file system, stdin, network,
  SDK) would answer, and returning the list of `Event`s it performs, in order,
  together with an `Outcome`.
* `log.Fatalf msg` is the outcome `Outcome.fatal msg`; normal completion is
  `Outcome.ok`.  A Go `(value, error)` return is `Except GoError value` inside
  `Outcome.ok` (all callers in the source only branch on `err != nil`).
* Opaque SDK handles (`*os.File`, `*vision.ImageAnnotatorClient`, the image
  entity) are natural-number handles; tokens and annotations keep the fields
  the program reads.
* `url.QueryEscape`, `filepath.Join` and `filepath.Clean` are implemented
  from their Go (unix) semantics, since `tokenCacheFile` relies on them.
-/

namespace OCR

deriving instance DecidableEq for Except

/-- Go errors are modelled by their message strings. -/
abbrev GoError := String

/-- Opaque handle to an open file (`*os.File`). -/
abbrev FileHandle := Nat

/-- Opaque handle to a `*vision.ImageAnnotatorClient`. -/
abbrev Client := Nat

/-- Opaque handle to a `vision.Image` entity. -/
abbrev Image := Nat

/-- Page-segmentation hints (`*pb.ImageContext`); the program only ever passes
`nil`, modelled as `none : Option ImageContext`. -/
abbrev ImageContext := Unit

/-- An `oauth2.Token`: access token, token type, refresh token, expiry. -/
structure Token where
  accessToken : String
  tokenType : String
  refreshToken : String
  expiry : Nat
  deriving DecidableEq, Repr

/-- A text annotation returned by the detection call; the program reads only
its `Description` field. -/
structure EntityAnnotation where
  description : String
  deriving DecidableEq, Repr

/-- An `oauth2.Config` produced by `google.ConfigFromJSON`; the program uses
it through `AuthCodeURL("state-token", oauth2.AccessTypeOffline)` (modelled by
the field `authCodeURL`), `Exchange` and `TokenSource` (oracle calls). -/
structure OAuthConfig where
  authCodeURL : String
  deriving DecidableEq, Repr

/-- The `option.ClientOption` passed to `vision.NewImageAnnotatorClient`. -/
inductive CredOption where
  | withCredentialsFile (path : String)
  | withTokenSource (config : OAuthConfig) (tok : Token)
  deriving DecidableEq, Repr

/-- Observable actions of a run, in program order.  File reads/writes, console
I/O and network/SDK calls each leave one event. -/
inductive Event where
  /-- `os.MkdirAll dir perm` (its error is discarded by the caller). -/
  | mkdirAll (dir : String) (perm : Nat)
  /-- `os.Open path`. -/
  | openFileRead (path : String)
  /-- `ioutil.ReadFile path`. -/
  | readFile (path : String)
  /-- `os.OpenFile(path, O_RDWR|O_CREATE|O_TRUNC, perm)`; `trunc` records that
  the flags truncate (overwrite) the file. -/
  | openFileWrite (path : String) (trunc : Bool) (perm : Nat)
  /-- `json.NewEncoder(f).Encode(token)`; `discarded` is the error value the
  source drops on the floor (`none` when the encode succeeds). -/
  | encodeToken (path : String) (tok : Token) (discarded : Option GoError)
  /-- Bytes written to standard output (`fmt.Printf` / `fmt.Println`). -/
  | printStr (s : String)
  /-- `fmt.Scan(&code)`: a blocking read from standard input. -/
  | stdinScan
  /-- `config.Exchange(ctx, code)`: the OAuth2 token-exchange network call. -/
  | exchangeCode (code : String)
  /-- `google.ConfigFromJSON(bytes, scopes...)`. -/
  | parseConfig (bytes : String) (scopes : List String)
  /-- `vision.NewImageAnnotatorClient(ctx, opt)`. -/
  | newImageAnnotatorClient (cred : CredOption)
  /-- `vision.NewImageFromReader(file)`. -/
  | newImageFromReader (f : FileHandle)
  /-- `cl.DetectTexts(ctx, image, ictx, maxResults)`: the remote detection
  call and its two option arguments. -/
  | detectTexts (cl : Client) (img : Image) (ictx : Option ImageContext) (maxResults : Int)
  deriving DecidableEq, Repr

/-- Result of running a piece of the program: normal value, or process
termination through `log.Fatalf`. -/
inductive Outcome (α : Type) where
  | ok (a : α)
  | fatal (msg : String)
  deriving DecidableEq, Repr

/-- Read-only oracle describing what the environment answers to each effect
the program can perform. -/
structure World where
  /-- `os.Open` at a path. -/
  openFile : String → Except GoError FileHandle
  /-- JSON-decoding an `oauth2.Token` from an open file. -/
  decodeToken : FileHandle → Except GoError Token
  /-- `os.OpenFile(path, O_RDWR|O_CREATE|O_TRUNC, 0600)` at a path. -/
  openFileWrite : String → Except GoError FileHandle
  /-- JSON-encoding a token into an open file: the error it would report,
  `none` on success (the code discards this result). -/
  encodeResult : FileHandle → Token → Option GoError
  /-- `fmt.Scan(&code)`: the authorization code typed on stdin. -/
  scan : Except GoError String
  /-- `config.Exchange(ctx, code)`. -/
  exchange : OAuthConfig → String → Except GoError Token
  /-- `ioutil.ReadFile` at a path. -/
  readFile : String → Except GoError String
  /-- `google.ConfigFromJSON(bytes, scopes...)`. -/
  configFromJSON : String → List String → Except GoError OAuthConfig
  /-- `vision.NewImageAnnotatorClient(ctx, opt)`. -/
  newImageAnnotatorClient : CredOption → Except GoError Client
  /-- `vision.NewImageFromReader(file)`. -/
  newImageFromReader : FileHandle → Except GoError Image
  /-- `cl.DetectTexts(ctx, image, ictx, maxResults)`. -/
  detectTexts : Client → Image → Option ImageContext → Int → Except GoError (List EntityAnnotation)

/-- The three flag variables (`-service_account`, `-client_id`, `-input`),
empty string when unset. -/
structure Flags where
  serviceAccount : String
  clientID : String
  input : String
  deriving DecidableEq, Repr

/-- Upper-case hexadecimal digit, as Go's `"0123456789ABCDEF"[n]`. -/
def upperhex (n : Nat) : Char :=
  if n < 10 then Char.ofNat (48 + n) else Char.ofNat (55 + n)

/-- The UTF-8 encoding of a character, as byte values. -/
def utf8Bytes (c : Char) : List Nat :=
  let n := c.toNat
  if n < 128 then [n]
  else if n < 2048 then [192 + n / 64, 128 + n % 64]
  else if n < 65536 then [224 + n / 4096, 128 + (n / 64) % 64, 128 + n % 64]
  else [240 + n / 262144, 128 + (n / 4096) % 64, 128 + (n / 64) % 64, 128 + n % 64]

/-- Whether a byte survives Go `url.QueryEscape` unescaped: ASCII letters,
digits, and `-`, `_`, `.`, `~`. -/
def queryUnescaped (b : Nat) : Bool :=
  (65 ≤ b && b ≤ 90) || (97 ≤ b && b ≤ 122) || (48 ≤ b && b ≤ 57) ||
    b == 45 || b == 95 || b == 46 || b == 126

/-- Go `url.QueryEscape` on the UTF-8 bytes of `s`: space becomes `+`, an
unescaped byte stays, any other byte becomes `%XX` with upper-case hex. -/
def queryEscape (s : String) : String :=
  String.mk <| (s.toList.flatMap utf8Bytes).flatMap fun b =>
    if b == 32 then ['+']
    else if queryUnescaped b then [Char.ofNat b]
    else ['%', upperhex (b / 16), upperhex (b % 16)]

/-- Split a character list at `/` separators (the element decomposition that
`filepath.Clean` performs on a slash-separated path). -/
def splitOnSlash : List Char → List (List Char)
  | [] => [[]]
  | c :: rest =>
    let r := splitOnSlash rest
    if c = '/' then [] :: r
    else
      match r with
      | [] => [[c]]
      | h :: t => (c :: h) :: t

/-- One step of Go `filepath.Clean`'s element processing, on a reversed
accumulator of output elements. -/
def cleanStep (rooted : Bool) (acc : List (List Char)) (c : List Char) : List (List Char) :=
  if c = ['.', '.'] then
    match acc with
    | [] => if rooted then [] else [['.', '.']]
    | last :: rest => if last = ['.', '.'] then c :: last :: rest else rest
  else c :: acc

/-- Go `filepath.Clean` for slash-separated (unix) paths: drop empty and `.`
elements, resolve `..` against preceding elements, keep leading `..`s of a
relative path, and return `.` for an empty relative result. -/
def pathClean (path : String) : String :=
  if path = "" then "." else
  let cs := path.toList
  let rooted : Bool := match cs with | '/' :: _ => true | _ => false
  let comps := (splitOnSlash cs).filter (fun c => !c.isEmpty && c ≠ ['.'])
  let out := (comps.foldl (cleanStep rooted) []).reverse
  let joined := List.intercalate ['/'] out
  if rooted then String.mk ('/' :: joined)
  else if joined = [] then "." else String.mk joined

/-- Go `filepath.Join`: ignore empty elements, join the rest with `/`, then
`Clean` the result. -/
def filepathJoin (elems : List String) : String :=
  let es := elems.filter (fun e => e ≠ "")
  if es.isEmpty then ""
  else pathClean (String.mk (List.intercalate ['/'] (es.map String.toList)))

/-- `vision.DefaultAuthScopes()` from the Vision SDK: the OAuth scopes the
recognition service requires. -/
def DefaultAuthScopes : List String :=
  ["https://www.googleapis.com/auth/cloud-platform",
   "https://www.googleapis.com/auth/cloud-vision"]

/-- `var scopeURLs = vision.DefaultAuthScopes()` (main.go:131). -/
def scopeURLs : List String := DefaultAuthScopes

/-- `tokenCacheFile` (main.go:78-83): `os.MkdirAll("./credentials", 0700)`
with its error discarded, then return
`filepath.Join("./credentials", url.QueryEscape("cache.json"))` and a nil
error.  Takes no oracle: its result is the same on every run. -/
def tokenCacheFile : List Event × Except GoError String :=
  let tokenCacheDir := "./credentials"
  ([Event.mkdirAll tokenCacheDir 0o700],
   Except.ok (filepathJoin [tokenCacheDir, queryEscape "cache.json"]))

/-- `tokenFromFile` (main.go:87-96): `os.Open`, then JSON-decode a token from
the open file.  On a decode error Go returns the partially decoded token
alongside the error; every caller only branches on the error, so the pair is
modelled as `Except`. -/
def tokenFromFile (w : World) (file : String) : List Event × Except GoError Token :=
  match w.openFile file with
  | Except.error e => ([Event.openFileRead file], Except.error e)
  | Except.ok f =>
    match w.decodeToken f with
    | Except.error e => ([Event.openFileRead file], Except.error e)
    | Except.ok t => ([Event.openFileRead file], Except.ok t)

/-- `getTokenFromWeb` (main.go:59-74): print the authorization URL, block on
`fmt.Scan` for a code (fatal on read error), exchange it (fatal on exchange
error), and return the exchanged token. -/
def getTokenFromWeb (w : World) (config : OAuthConfig) : List Event × Outcome Token :=
  let authURL := config.authCodeURL
  let ev0 : List Event := [Event.printStr
    ("Go to the following link in your browser then type the authorization code: \n"
      ++ authURL ++ "\n")]
  match w.scan with
  | Except.error e =>
      (ev0 ++ [Event.stdinScan], Outcome.fatal ("Unable to read authorization code " ++ e))
  | Except.ok code =>
    match w.exchange config code with
    | Except.error e =>
        (ev0 ++ [Event.stdinScan, Event.exchangeCode code],
         Outcome.fatal ("Unable to retrieve token from web " ++ e))
    | Except.ok tok =>
        (ev0 ++ [Event.stdinScan, Event.exchangeCode code], Outcome.ok tok)

/-- `saveToken` (main.go:100-108): print the destination, open the file with
`O_RDWR|O_CREATE|O_TRUNC` mode `0600` (fatal on failure), then JSON-encode the
token into it, discarding the encoder's error. -/
def saveToken (w : World) (file : String) (token : Token) : List Event × Outcome Unit :=
  let ev0 : List Event := [Event.printStr ("Saving credential file to: " ++ file ++ "\n")]
  match w.openFileWrite file with
  | Except.error e =>
      (ev0 ++ [Event.openFileWrite file true 0o600],
       Outcome.fatal ("Unable to cache oauth token: " ++ e))
  | Except.ok f =>
      (ev0 ++ [Event.openFileWrite file true 0o600,
        Event.encodeToken file token (w.encodeResult f token)],
       Outcome.ok ())

/-- `getToken` (main.go:44-55): compute the cache path, try the cache file,
and on any cache failure run the interactive flow and save its token.  The
returned error is always nil on every non-fatal path. -/
def getToken (w : World) (config : OAuthConfig) : List Event × Outcome (Except GoError Token) :=
  match tokenCacheFile with
  | (ev1, Except.error err) =>
      (ev1, Outcome.ok (Except.error
        ("unable to get path to cached credential file. " ++ err)))
  | (ev1, Except.ok cacheFile) =>
    match tokenFromFile w cacheFile with
    | (ev2, Except.ok tok) => (ev1 ++ ev2, Outcome.ok (Except.ok tok))
    | (ev2, Except.error _) =>
      match getTokenFromWeb w config with
      | (ev3, Outcome.fatal m) => (ev1 ++ ev2 ++ ev3, Outcome.fatal m)
      | (ev3, Outcome.ok tok) =>
        match saveToken w cacheFile tok with
        | (ev4, Outcome.fatal m) => (ev1 ++ ev2 ++ ev3 ++ ev4, Outcome.fatal m)
        | (ev4, Outcome.ok _) => (ev1 ++ ev2 ++ ev3 ++ ev4, Outcome.ok (Except.ok tok))

/-- `visionClient` (main.go:110-129): with `-service_account` set, build the
client directly from that credentials file; otherwise read and parse the
`-client_id` file with `scopeURLs`, resolve a token through `getToken`, wrap
it in a token source, and build the client from that. -/
def visionClient (w : World) (fl : Flags) : List Event × Outcome (Except GoError Client) :=
  if fl.serviceAccount ≠ "" then
    ([Event.newImageAnnotatorClient (CredOption.withCredentialsFile fl.serviceAccount)],
     Outcome.ok (w.newImageAnnotatorClient (CredOption.withCredentialsFile fl.serviceAccount)))
  else
    match w.readFile fl.clientID with
    | Except.error e =>
        ([Event.readFile fl.clientID],
         Outcome.ok (Except.error ("unable to read client id file: " ++ e)))
    | Except.ok b =>
      match w.configFromJSON b scopeURLs with
      | Except.error e =>
          ([Event.readFile fl.clientID, Event.parseConfig b scopeURLs],
           Outcome.ok (Except.error ("unable to parse client id file to config: " ++ e)))
      | Except.ok config =>
        match getToken w config with
        | (ev, Outcome.fatal m) =>
            ([Event.readFile fl.clientID, Event.parseConfig b scopeURLs] ++ ev,
             Outcome.fatal m)
        | (ev, Outcome.ok (Except.error e)) =>
            ([Event.readFile fl.clientID, Event.parseConfig b scopeURLs] ++ ev,
             Outcome.ok (Except.error e))
        | (ev, Outcome.ok (Except.ok tok)) =>
            ([Event.readFile fl.clientID, Event.parseConfig b scopeURLs] ++ ev
               ++ [Event.newImageAnnotatorClient (CredOption.withTokenSource config tok)],
             Outcome.ok (w.newImageAnnotatorClient (CredOption.withTokenSource config tok)))

/-- `main` (main.go:133-169): flag validation, client construction, image
open/decode, detection, and output of `Text:` plus one line per annotation
description. -/
def main (w : World) (fl : Flags) : List Event × Outcome Unit :=
  if fl.serviceAccount = "" ∧ fl.clientID = "" then
    ([], Outcome.fatal "either -service_account or -client_id must be specified")
  else if fl.serviceAccount ≠ "" ∧ fl.clientID ≠ "" then
    ([], Outcome.fatal "-service_account and -client_id are mutually exclusive")
  else if fl.input = "" then
    ([], Outcome.fatal "-input needs to be specified")
  else
    match visionClient w fl with
    | (ev, Outcome.fatal m) => (ev, Outcome.fatal m)
    | (ev, Outcome.ok (Except.error e)) =>
        (ev, Outcome.fatal ("Failed to create client: " ++ e))
    | (ev, Outcome.ok (Except.ok cl)) =>
      match w.openFile fl.input with
      | Except.error e =>
          (ev ++ [Event.openFileRead fl.input], Outcome.fatal ("Failed to read file: " ++ e))
      | Except.ok file =>
        match w.newImageFromReader file with
        | Except.error e =>
            (ev ++ [Event.openFileRead fl.input, Event.newImageFromReader file],
             Outcome.fatal ("Failed to create image entity: " ++ e))
        | Except.ok image =>
          match w.detectTexts cl image none (-1) with
          | Except.error e =>
              (ev ++ [Event.openFileRead fl.input, Event.newImageFromReader file,
                 Event.detectTexts cl image none (-1)],
               Outcome.fatal ("Error detecting text: " ++ e))
          | Except.ok texts =>
              (ev ++ [Event.openFileRead fl.input, Event.newImageFromReader file,
                 Event.detectTexts cl image none (-1), Event.printStr "Text:\n"]
                 ++ texts.map (fun t => Event.printStr (t.description ++ "\n")),
               Outcome.ok ())

/-- The bytes a trace writes to standard output, in order. -/
def stdoutOf : List Event → String
  | [] => ""
  | Event.printStr s :: rest => s ++ stdoutOf rest
  | _ :: rest => stdoutOf rest

/-- Whether an event prints to standard output. -/
def Event.isPrint : Event → Bool
  | Event.printStr _ => true
  | _ => false

/-- Whether an event reads from standard input. -/
def Event.isStdinRead : Event → Bool
  | Event.stdinScan => true
  | _ => false

/-- Whether an event writes to the file system (opening for write, or
encoding into an open file). -/
def Event.isFsWrite : Event → Bool
  | Event.openFileWrite _ _ _ => true
  | Event.encodeToken _ _ _ => true
  | _ => false

/-- `tokenCacheFile` evaluated: one `MkdirAll` on `./credentials` with mode
`0700` (448), and the cleaned path `credentials/cache.json` with a nil
error. -/
theorem tokenCacheFile_eq :
    tokenCacheFile =
      ([Event.mkdirAll "./credentials" 448], Except.ok "credentials/cache.json") := by
  decide

/-- A sample token for concrete runs. -/
def tok0 : Token :=
  { accessToken := "ya29.sample"
    tokenType := "Bearer"
    refreshToken := "1//refresh"
    expiry := 1700000000 }

/-- A sample OAuth configuration for concrete runs. -/
def cfg0 : OAuthConfig :=
  { authCodeURL := "https://accounts.google.com/o/oauth2/auth?state=state-token" }

/-- Environment in which every external operation fails. -/
def wErr : World :=
  { openFile := fun _ => Except.error "open: no such file or directory"
    decodeToken := fun _ => Except.error "EOF"
    openFileWrite := fun _ => Except.error "open: permission denied"
    encodeResult := fun _ _ => none
    scan := Except.error "EOF"
    exchange := fun _ _ => Except.error "oauth2: cannot fetch token"
    readFile := fun _ => Except.error "open: no such file or directory"
    configFromJSON := fun _ _ => Except.error "invalid character"
    newImageAnnotatorClient := fun _ => Except.error "client construction failed"
    newImageFromReader := fun _ => Except.error "image: unknown format"
    detectTexts := fun _ _ _ _ => Except.error "rpc error" }

/-- Environment for a successful service-account run whose detection returns
the three annotations of the spec's example. -/
def wHappy : World :=
  { openFile := fun _ => Except.ok 1
    decodeToken := fun _ => Except.error "EOF"
    openFileWrite := fun _ => Except.ok 2
    encodeResult := fun _ _ => none
    scan := Except.ok "authcode"
    exchange := fun _ _ => Except.ok tok0
    readFile := fun _ => Except.error "open: no such file or directory"
    configFromJSON := fun _ _ => Except.ok cfg0
    newImageAnnotatorClient := fun _ => Except.ok 5
    newImageFromReader := fun _ => Except.ok 9
    detectTexts := fun _ _ _ _ =>
      Except.ok [{ description := "hello world" }, { description := "hello" },
        { description := "world" }] }

/-- Claim C1: with both credential flags set, or neither, `main` terminates
fatally with a configuration-error message and its event trace is empty: no
file I/O, console I/O, or network call happens (in particular `visionClient`,
the image open, and the detection call are never reached). -/
theorem c1_credential_flags_config_fatal (w : World) (fl : Flags)
    (h : (fl.serviceAccount = "" ∧ fl.clientID = "") ∨
         (fl.serviceAccount ≠ "" ∧ fl.clientID ≠ "")) :
    main w fl = ([], Outcome.fatal "either -service_account or -client_id must be specified") ∨
    main w fl = ([], Outcome.fatal "-service_account and -client_id are mutually exclusive") := by
  rcases h with ⟨h1, h2⟩ | ⟨h1, h2⟩
  · left; simp [main, h1, h2]
  · right; simp [main, h1, h2]

/-- Witness for C1 at the concrete invocation with neither credential flag. -/
theorem c1_credential_flags_config_fatal_witness :
    main wErr { serviceAccount := "", clientID := "", input := "table.jpg" } =
        ([], Outcome.fatal "either -service_account or -client_id must be specified") ∨
    main wErr { serviceAccount := "", clientID := "", input := "table.jpg" } =
        ([], Outcome.fatal "-service_account and -client_id are mutually exclusive") :=
  c1_credential_flags_config_fatal wErr
    { serviceAccount := "", clientID := "", input := "table.jpg" } (Or.inl ⟨rfl, rfl⟩)

/-- Claim C2: with exactly one credential flag set but `-input` empty, `main`
terminates fatally with the input configuration error and an empty trace, so
no credential file is read and no token-cache access occurs (`visionClient`
is never reached). -/
theorem c2_missing_input_config_fatal (w : World) (fl : Flags)
    (h : (fl.serviceAccount = "" ∧ fl.clientID ≠ "") ∨
         (fl.serviceAccount ≠ "" ∧ fl.clientID = ""))
    (hin : fl.input = "") :
    main w fl = ([], Outcome.fatal "-input needs to be specified") := by
  rcases h with ⟨h1, h2⟩ | ⟨h1, h2⟩ <;> simp [main, h1, h2, hin]

/-- Witness for C2 at a concrete invocation with only `-client_id` set. -/
theorem c2_missing_input_config_fatal_witness :
    main wErr { serviceAccount := "", clientID := "client.json", input := "" } =
      ([], Outcome.fatal "-input needs to be specified") :=
  c2_missing_input_config_fatal wErr
    { serviceAccount := "", clientID := "client.json", input := "" }
    (Or.inl ⟨rfl, by decide⟩) rfl

/-- Environment in which the cache file opens for writing but the JSON encode
of the token fails. -/
def wEncodeFail : World :=
  { openFile := fun _ => Except.error "open: no such file or directory"
    decodeToken := fun _ => Except.error "EOF"
    openFileWrite := fun _ => Except.ok 7
    encodeResult := fun _ _ => some "write: no space left on device"
    scan := Except.ok "authcode"
    exchange := fun _ _ => Except.ok tok0
    readFile := fun _ => Except.error "open: no such file or directory"
    configFromJSON := fun _ _ => Except.ok cfg0
    newImageAnnotatorClient := fun _ => Except.error "client construction failed"
    newImageFromReader := fun _ => Except.error "image: unknown format"
    detectTexts := fun _ _ _ _ => Except.error "rpc error" }

/-- Counterexample to claim C3 as stated: when the cache file opens
successfully but writing (JSON-encoding) the token into it fails, `saveToken`
returns normally — the process does not terminate and the write error is
discarded, visible in the trace only as the dropped value. -/
theorem c3_counterexample_encode_failure_silent :
    (saveToken wEncodeFail "credentials/cache.json" tok0).2 = Outcome.ok () ∧
    wEncodeFail.encodeResult 7 tok0 = some "write: no space left on device" ∧
    (saveToken wEncodeFail "credentials/cache.json" tok0).1 =
      [Event.printStr "Saving credential file to: credentials/cache.json\n",
       Event.openFileWrite "credentials/cache.json" true 384,
       Event.encodeToken "credentials/cache.json" tok0
         (some "write: no space left on device")] := by
  refine ⟨rfl, rfl, rfl⟩

/-- Claim C3 (amended): a failure to open/create the cache file is reported
and fatal, but an error from JSON-encoding the token into the successfully
opened file is silently discarded and `saveToken` returns normally with the
token possibly unsaved. -/
theorem c3_save_failure_amended (w : World) (file : String) (tok : Token) :
    (∀ e, w.openFileWrite file = Except.error e →
        (saveToken w file tok).2 = Outcome.fatal ("Unable to cache oauth token: " ++ e)) ∧
    (∀ f, w.openFileWrite file = Except.ok f →
        (saveToken w file tok).2 = Outcome.ok ()) := by
  constructor
  · intro e he; simp [saveToken, he]
  · intro f hf; simp [saveToken, hf]

/-- Witness for amended C3: a concrete failing open is fatal. -/
theorem c3_save_failure_amended_witness :
    (saveToken wErr "credentials/cache.json" tok0).2 =
      Outcome.fatal ("Unable to cache oauth token: " ++ "open: permission denied") :=
  (c3_save_failure_amended wErr "credentials/cache.json" tok0).1
    "open: permission denied" rfl

/-- `stdoutOf` distributes over trace concatenation. -/
theorem stdoutOf_append (l1 l2 : List Event) :
    stdoutOf (l1 ++ l2) = stdoutOf l1 ++ stdoutOf l2 := by
  induction l1 with
  | nil => simp [stdoutOf]
  | cons e l ih => cases e <;> simp [stdoutOf, ih, String.append_assoc]

/-- The stdout of the annotation-printing loop: one line per description, in
order. -/
theorem stdoutOf_descriptionLines (texts : List EntityAnnotation) :
    stdoutOf (texts.map fun t => Event.printStr (t.description ++ "\n")) =
      texts.foldr (fun t acc => t.description ++ "\n" ++ acc) "" := by
  induction texts with
  | nil => simp [stdoutOf]
  | cons t ts ih => simp [stdoutOf, ih, String.append_assoc]

/-- Claim C4: after a successful detection returning `texts`, the program's
trace ends with exactly the header print `Text:` and one print per
annotation's description (each a line of its own, unmodified, in order), and
the whole run's stdout on the service-account path is exactly the header line
followed by the description lines. -/
theorem c4_output_header_then_descriptions (w : World) (fl : Flags) (cl : Client)
    (f : FileHandle) (img : Image) (texts : List EntityAnnotation)
    (hsa : fl.serviceAccount ≠ "") (hcid : fl.clientID = "") (hin : fl.input ≠ "")
    (hcl : w.newImageAnnotatorClient (CredOption.withCredentialsFile fl.serviceAccount) =
      Except.ok cl)
    (hopen : w.openFile fl.input = Except.ok f)
    (himg : w.newImageFromReader f = Except.ok img)
    (hdet : w.detectTexts cl img none (-1) = Except.ok texts) :
    main w fl =
      ([Event.newImageAnnotatorClient (CredOption.withCredentialsFile fl.serviceAccount),
        Event.openFileRead fl.input, Event.newImageFromReader f,
        Event.detectTexts cl img none (-1), Event.printStr "Text:\n"]
        ++ texts.map (fun t => Event.printStr (t.description ++ "\n")),
       Outcome.ok ()) ∧
    stdoutOf (main w fl).1 =
      "Text:\n" ++ texts.foldr (fun t acc => t.description ++ "\n" ++ acc) "" := by
  have hmain : main w fl =
      ([Event.newImageAnnotatorClient (CredOption.withCredentialsFile fl.serviceAccount),
        Event.openFileRead fl.input, Event.newImageFromReader f,
        Event.detectTexts cl img none (-1), Event.printStr "Text:\n"]
        ++ texts.map (fun t => Event.printStr (t.description ++ "\n")),
       Outcome.ok ()) := by
    simp [main, visionClient, hsa, hcid, hin, hcl, hopen, himg, hdet]
  refine ⟨hmain, ?_⟩
  rw [hmain]
  have := stdoutOf_append
    [Event.newImageAnnotatorClient (CredOption.withCredentialsFile fl.serviceAccount),
     Event.openFileRead fl.input, Event.newImageFromReader f,
     Event.detectTexts cl img none (-1), Event.printStr "Text:\n"]
    (texts.map (fun t => Event.printStr (t.description ++ "\n")))
  simp only [this, stdoutOf_descriptionLines, stdoutOf, List.append_eq, List.nil_append]

/-- Witness for C4: the spec's example annotations produce exactly the four
lines `Text:`, `hello world`, `hello`, `world`. -/
theorem c4_output_header_then_descriptions_witness :
    main wHappy { serviceAccount := "sa.json", clientID := "", input := "table.jpg" } =
      ([Event.newImageAnnotatorClient (CredOption.withCredentialsFile "sa.json"),
        Event.openFileRead "table.jpg", Event.newImageFromReader 1,
        Event.detectTexts 5 9 none (-1), Event.printStr "Text:\n",
        Event.printStr "hello world\n", Event.printStr "hello\n", Event.printStr "world\n"],
       Outcome.ok ()) ∧
    stdoutOf (main wHappy
        { serviceAccount := "sa.json", clientID := "", input := "table.jpg" }).1 =
      "Text:\nhello world\nhello\nworld\n" := by
  have h := c4_output_header_then_descriptions wHappy
    { serviceAccount := "sa.json", clientID := "", input := "table.jpg" } 5 1 9
    [{ description := "hello world" }, { description := "hello" }, { description := "world" }]
    (by decide) rfl (by decide) rfl rfl rfl rfl
  exact ⟨by rw [h.1]; rfl, by rw [h.2]; rfl⟩

/-- Environment with a valid pre-populated token cache file. -/
def wCache : World :=
  { openFile := fun _ => Except.ok 3
    decodeToken := fun _ => Except.ok tok0
    openFileWrite := fun _ => Except.error "open: permission denied"
    encodeResult := fun _ _ => none
    scan := Except.error "EOF"
    exchange := fun _ _ => Except.error "oauth2: cannot fetch token"
    readFile := fun _ => Except.ok "client-id-bytes"
    configFromJSON := fun _ _ => Except.ok cfg0
    newImageAnnotatorClient := fun _ => Except.ok 5
    newImageFromReader := fun _ => Except.error "image: unknown format"
    detectTexts := fun _ _ _ _ => Except.error "rpc error" }

/-- Claim C5: when the cache file opens and decodes to a token, `getToken`
returns exactly that token, and its trace is only the directory creation and
the cache read: nothing is printed (no authorization URL), standard input is
not read, and no file is written. -/
theorem c5_cache_hit_no_interaction (w : World) (config : OAuthConfig)
    (f : FileHandle) (tok : Token)
    (hopen : w.openFile "credentials/cache.json" = Except.ok f)
    (hdec : w.decodeToken f = Except.ok tok) :
    getToken w config =
      ([Event.mkdirAll "./credentials" 448, Event.openFileRead "credentials/cache.json"],
       Outcome.ok (Except.ok tok)) ∧
    ∀ e ∈ (getToken w config).1,
      e.isPrint = false ∧ e.isStdinRead = false ∧ e.isFsWrite = false := by
  have hg : getToken w config =
      ([Event.mkdirAll "./credentials" 448, Event.openFileRead "credentials/cache.json"],
       Outcome.ok (Except.ok tok)) := by
    simp [getToken, tokenCacheFile_eq, tokenFromFile, hopen, hdec]
  have htr : (getToken w config).1 =
      [Event.mkdirAll "./credentials" 448, Event.openFileRead "credentials/cache.json"] := by
    rw [hg]
  refine ⟨hg, ?_⟩
  rw [htr]
  decide

/-- Witness for C5: a concrete cached-token run returns the cached token with
no interactive events. -/
theorem c5_cache_hit_no_interaction_witness :
    getToken wCache cfg0 =
      ([Event.mkdirAll "./credentials" 448, Event.openFileRead "credentials/cache.json"],
       Outcome.ok (Except.ok tok0)) ∧
    ∀ e ∈ (getToken wCache cfg0).1,
      e.isPrint = false ∧ e.isStdinRead = false ∧ e.isFsWrite = false :=
  c5_cache_hit_no_interaction wCache cfg0 3 tok0 rfl rfl

/-- Environment with no cache file, where the interactive flow succeeds. -/
def wWeb : World :=
  { openFile := fun _ => Except.error "open credentials/cache.json: no such file or directory"
    decodeToken := fun _ => Except.error "EOF"
    openFileWrite := fun _ => Except.ok 4
    encodeResult := fun _ _ => none
    scan := Except.ok "4/P7q-authcode"
    exchange := fun _ code => if code = "4/P7q-authcode" then Except.ok tok0
      else Except.error "oauth2: invalid grant"
    readFile := fun _ => Except.ok "client-id-bytes"
    configFromJSON := fun _ _ => Except.ok cfg0
    newImageAnnotatorClient := fun _ => Except.ok 5
    newImageFromReader := fun _ => Except.error "image: unknown format"
    detectTexts := fun _ _ _ _ => Except.error "rpc error" }

/-- Claim C6: when the cache file is absent or undecodable and the
interactive flow succeeds, `getToken` prints the authorization URL, blocks on
a standard-input read, exchanges the code over the network, opens the cache
file with truncation (overwriting it) and encodes the exchanged token into
it, and returns exactly the exchanged token. -/
theorem c6_cache_miss_interactive_flow (w : World) (config : OAuthConfig)
    (code : String) (tok : Token) (g : FileHandle)
    (hmiss : (∃ e, w.openFile "credentials/cache.json" = Except.error e) ∨
             (∃ f e, w.openFile "credentials/cache.json" = Except.ok f ∧
               w.decodeToken f = Except.error e))
    (hscan : w.scan = Except.ok code)
    (hexch : w.exchange config code = Except.ok tok)
    (hw : w.openFileWrite "credentials/cache.json" = Except.ok g) :
    getToken w config =
      ([Event.mkdirAll "./credentials" 448, Event.openFileRead "credentials/cache.json",
        Event.printStr
          ("Go to the following link in your browser then type the authorization code: \n"
            ++ config.authCodeURL ++ "\n"),
        Event.stdinScan, Event.exchangeCode code,
        Event.printStr "Saving credential file to: credentials/cache.json\n",
        Event.openFileWrite "credentials/cache.json" true 384,
        Event.encodeToken "credentials/cache.json" tok (w.encodeResult g tok)],
       Outcome.ok (Except.ok tok)) := by
  rcases hmiss with ⟨e, he⟩ | ⟨f, e, hf, he⟩
  · simp [getToken, tokenCacheFile_eq, tokenFromFile, getTokenFromWeb, saveToken,
      he, hscan, hexch, hw]
  · simp [getToken, tokenCacheFile_eq, tokenFromFile, getTokenFromWeb, saveToken,
      hf, he, hscan, hexch, hw]

/-- Witness for C6: a concrete cache-miss run performs the full interactive
flow and returns the exchanged token. -/
theorem c6_cache_miss_interactive_flow_witness :
    getToken wWeb cfg0 =
      ([Event.mkdirAll "./credentials" 448, Event.openFileRead "credentials/cache.json",
        Event.printStr
          ("Go to the following link in your browser then type the authorization code: \n"
            ++ cfg0.authCodeURL ++ "\n"),
        Event.stdinScan, Event.exchangeCode "4/P7q-authcode",
        Event.printStr "Saving credential file to: credentials/cache.json\n",
        Event.openFileWrite "credentials/cache.json" true 384,
        Event.encodeToken "credentials/cache.json" tok0 (wWeb.encodeResult 4 tok0)],
       Outcome.ok (Except.ok tok0)) :=
  c6_cache_miss_interactive_flow wWeb cfg0 "4/P7q-authcode" tok0 4
    (Or.inl ⟨"open credentials/cache.json: no such file or directory", rfl⟩)
    rfl (by decide) rfl

/-- Claim C7: credential resolution gives the service-account path
precedence.  With `-service_account` non-empty the client is built directly
from that credentials file and nothing else happens (in particular the
`-client_id` file is not read); only with it empty is the `-client_id` file
read, parsed into an OAuth2 configuration scoped to `scopeURLs` (the
recognition service's scopes), and used to resolve a token that the client is
built from. -/
theorem c7_service_account_precedence (w : World) (fl : Flags) :
    (fl.serviceAccount ≠ "" →
      visionClient w fl =
        ([Event.newImageAnnotatorClient (CredOption.withCredentialsFile fl.serviceAccount)],
         Outcome.ok (w.newImageAnnotatorClient
           (CredOption.withCredentialsFile fl.serviceAccount)))) ∧
    (fl.serviceAccount = "" →
      ∀ b config ev tok,
        w.readFile fl.clientID = Except.ok b →
        w.configFromJSON b scopeURLs = Except.ok config →
        getToken w config = (ev, Outcome.ok (Except.ok tok)) →
        visionClient w fl =
          ([Event.readFile fl.clientID, Event.parseConfig b scopeURLs] ++ ev ++
             [Event.newImageAnnotatorClient (CredOption.withTokenSource config tok)],
           Outcome.ok (w.newImageAnnotatorClient
             (CredOption.withTokenSource config tok)))) := by
  constructor
  · intro hsa
    simp [visionClient, hsa]
  · intro hsa b config ev tok hrf hcfg hgt
    simp [visionClient, hsa, hrf, hcfg, hgt]

/-- Witness for C7: with `-service_account` set the client comes straight
from the credentials file; with only `-client_id` set the client-ID file is
read, parsed with the service scopes, and the cached token is wrapped into
the client. -/
theorem c7_service_account_precedence_witness :
    visionClient wHappy { serviceAccount := "sa.json", clientID := "", input := "table.jpg" } =
      ([Event.newImageAnnotatorClient (CredOption.withCredentialsFile "sa.json")],
       Outcome.ok (wHappy.newImageAnnotatorClient
         (CredOption.withCredentialsFile "sa.json"))) ∧
    visionClient wCache
        { serviceAccount := "", clientID := "client.json", input := "table.jpg" } =
      ([Event.readFile "client.json", Event.parseConfig "client-id-bytes" scopeURLs] ++
         [Event.mkdirAll "./credentials" 448, Event.openFileRead "credentials/cache.json"] ++
         [Event.newImageAnnotatorClient (CredOption.withTokenSource cfg0 tok0)],
       Outcome.ok (wCache.newImageAnnotatorClient
         (CredOption.withTokenSource cfg0 tok0))) :=
  ⟨(c7_service_account_precedence wHappy
      { serviceAccount := "sa.json", clientID := "", input := "table.jpg" }).1 (by decide),
   (c7_service_account_precedence wCache
      { serviceAccount := "", clientID := "client.json", input := "table.jpg" }).2 rfl
     "client-id-bytes" cfg0
     [Event.mkdirAll "./credentials" 448, Event.openFileRead "credentials/cache.json"] tok0
     rfl rfl (by decide)⟩

/-- Claim C8: the token-cache path is the same fixed value on every run
(`tokenCacheFile` takes no input at all): `filepath.Join` returns the cleaned
form `credentials/cache.json` of `./credentials/cache.json` — the same file —
and computing the path issues `MkdirAll` on the parent directory
`./credentials` with mode `0700` (= 448). -/
theorem c8_cache_path_fixed :
    tokenCacheFile =
      ([Event.mkdirAll "./credentials" 448], Except.ok "credentials/cache.json") ∧
    pathClean "./credentials/cache.json" = "credentials/cache.json" :=
  ⟨tokenCacheFile_eq, by decide⟩

/-- `tokenFromFile` performs no detection call. -/
theorem tokenFromFile_no_detect (w : World) (file : String) (cl : Client)
    (img : Image) (ictx : Option ImageContext) (mr : Int) :
    Event.detectTexts cl img ictx mr ∉ (tokenFromFile w file).1 := by
  unfold tokenFromFile
  cases ho : w.openFile file with
  | error e => simp
  | ok f => cases hd : w.decodeToken f <;> simp [hd]

/-- `getTokenFromWeb` performs no detection call. -/
theorem getTokenFromWeb_no_detect (w : World) (config : OAuthConfig) (cl : Client)
    (img : Image) (ictx : Option ImageContext) (mr : Int) :
    Event.detectTexts cl img ictx mr ∉ (getTokenFromWeb w config).1 := by
  unfold getTokenFromWeb
  cases hs : w.scan with
  | error e => simp
  | ok code => cases hx : w.exchange config code <;> simp [hx]

/-- `saveToken` performs no detection call. -/
theorem saveToken_no_detect (w : World) (file : String) (tok : Token) (cl : Client)
    (img : Image) (ictx : Option ImageContext) (mr : Int) :
    Event.detectTexts cl img ictx mr ∉ (saveToken w file tok).1 := by
  unfold saveToken
  cases ho : w.openFileWrite file <;> simp [ho]

/-- `getToken` performs no detection call. -/
theorem getToken_no_detect (w : World) (config : OAuthConfig) (cl : Client)
    (img : Image) (ictx : Option ImageContext) (mr : Int) :
    Event.detectTexts cl img ictx mr ∉ (getToken w config).1 := by
  unfold getToken
  rw [tokenCacheFile_eq]
  rcases htf : tokenFromFile w "credentials/cache.json" with ⟨ev2, r2⟩
  have h1 := tokenFromFile_no_detect w "credentials/cache.json" cl img ictx mr
  rw [htf] at h1
  simp only [List.mem_append] at h1 ⊢
  cases r2 with
  | ok tok => simp [htf, h1]
  | error e =>
    rcases hweb : getTokenFromWeb w config with ⟨ev3, r3⟩
    have h2 := getTokenFromWeb_no_detect w config cl img ictx mr
    rw [hweb] at h2
    cases r3 with
    | fatal m => simp [htf, hweb, h1, h2]
    | ok tok =>
      rcases hsv : saveToken w "credentials/cache.json" tok with ⟨ev4, r4⟩
      have h3 := saveToken_no_detect w "credentials/cache.json" tok cl img ictx mr
      rw [hsv] at h3
      cases r4 <;> simp [htf, hweb, hsv, h1, h2, h3]

/-- `visionClient` performs no detection call. -/
theorem visionClient_no_detect (w : World) (fl : Flags) (cl : Client)
    (img : Image) (ictx : Option ImageContext) (mr : Int) :
    Event.detectTexts cl img ictx mr ∉ (visionClient w fl).1 := by
  unfold visionClient
  split
  · simp
  · cases hr : w.readFile fl.clientID with
    | error e => simp [hr]
    | ok b =>
      cases hc : w.configFromJSON b scopeURLs with
      | error e => simp [hr, hc]
      | ok config =>
        rcases hgt : getToken w config with ⟨ev, r⟩
        have hg := getToken_no_detect w config cl img ictx mr
        rw [hgt] at hg
        simp only [List.mem_append] at hg ⊢
        cases r with
        | fatal m => simp [hr, hc, hgt, hg]
        | ok x => cases x <;> simp [hr, hc, hgt, hg]

/-- Claim C9: every detection call any run performs passes a nil image
context (no page-segmentation hints) and `maxResults = -1` (no result-count
limit). -/
theorem c9_detect_nil_context_all_results (w : World) (fl : Flags) (cl : Client)
    (img : Image) (ictx : Option ImageContext) (mr : Int)
    (h : Event.detectTexts cl img ictx mr ∈ (main w fl).1) :
    ictx = none ∧ mr = -1 := by
  have hv := visionClient_no_detect w fl cl img ictx mr
  unfold main at h
  repeat' split at h
  all_goals simp_all [List.mem_append, List.mem_map]

/-- Witness for C9: the successful service-account run contains a detection
event, whose arguments are the nil context and `-1`. -/
theorem c9_detect_nil_context_all_results_witness :
    Event.detectTexts 5 9 none (-1) ∈
      (main wHappy { serviceAccount := "sa.json", clientID := "", input := "table.jpg" }).1 ∧
    ((none : Option ImageContext) = none ∧ (-1 : Int) = -1) :=
  ⟨by decide,
   c9_detect_nil_context_all_results wHappy
     { serviceAccount := "sa.json", clientID := "", input := "table.jpg" } 5 9 none (-1)
     (by decide)⟩

/-- Claim C10: `getToken` never returns a non-nil error: `tokenCacheFile`
always returns the fixed path with a nil error (the `MkdirAll` result is
discarded), and every `getToken` run either terminates the process fatally
(inside the web flow or the save) or returns a token with a nil error — so
the error branch inside `getToken` and the `err != nil` branch on `getToken`
inside `visionClient` are unreachable. -/
theorem c10_getToken_error_unreachable (w : World) (config : OAuthConfig) :
    tokenCacheFile.2 = Except.ok "credentials/cache.json" ∧
    (∀ e, (getToken w config).2 ≠ Outcome.ok (Except.error e)) ∧
    ((∃ m, (getToken w config).2 = Outcome.fatal m) ∨
     (∃ t, (getToken w config).2 = Outcome.ok (Except.ok t))) := by
  have hres : (∃ m, (getToken w config).2 = Outcome.fatal m) ∨
      (∃ t, (getToken w config).2 = Outcome.ok (Except.ok t)) := by
    unfold getToken
    rw [tokenCacheFile_eq]
    repeat' split
    all_goals
      first
      | exact Or.inr ⟨_, rfl⟩
      | exact Or.inl ⟨_, rfl⟩
      | simp_all
  refine ⟨by rw [tokenCacheFile_eq], ?_, hres⟩
  intro e he
  rcases hres with ⟨m, hm⟩ | ⟨t, ht⟩
  · rw [hm] at he; exact Outcome.noConfusion he
  · rw [ht] at he
    exact Except.noConfusion (Outcome.ok.inj he)

/-- Witness for C10 at a concrete environment and configuration. -/
theorem c10_getToken_error_unreachable_witness :
    tokenCacheFile.2 = Except.ok "credentials/cache.json" ∧
    (∀ e, (getToken wErr cfg0).2 ≠ Outcome.ok (Except.error e)) ∧
    ((∃ m, (getToken wErr cfg0).2 = Outcome.fatal m) ∨
     (∃ t, (getToken wErr cfg0).2 = Outcome.ok (Except.ok t))) :=
  c10_getToken_error_unreachable wErr cfg0

end OCR
